import Mathlib

/-!
Verification of the UltraGrid libavcodec video-compress module
(`src/video_compress/libavcodec.cpp`) against its natural-language
specification.

The development shallowly embeds the relevant parts of the C++ source:
  * pixel formats are embedded as `Int` (the `AVPixelFormat` enum values,
    with `AV_PIX_FMT_NONE = -1`);
  * C `double` values are embedded as exact rationals (`Rat`);
  * C strings are embedded as `String`, and the libc helpers the module
    uses (`strncasecmp`, `strcasecmp`, `strstr`, `toupper`, `atoi`,
    `atof`, `std::stoi`) are given executable models below;
  * helpers of the repository that live outside the verified file
    (`get_codec_from_name`, `unit_evaluate`, `unit_evaluate_dbl`,
    `get_commandline_param`) are passed in as an explicit `Externals`
    record, so theorems and concrete evaluations may instantiate them.

Each claim gets one theorem (plus a witness or counterexample where
required); definitions are transcribed from the source functions named
in the accompanying doc comments.
-/

namespace UGLavc

/-! ## ASCII / libc string helpers -/

/-- ASCII `tolower` (as used by `strcasecmp`/`strncasecmp`). -/
def asciiLower (c : Char) : Char :=
  if 'A' ≤ c ∧ c ≤ 'Z' then Char.ofNat (c.toNat + 32) else c

/-- ASCII `toupper` (as used by `set_codec_thread_mode`). -/
def asciiUpper (c : Char) : Char :=
  if 'a' ≤ c ∧ c ≤ 'z' then Char.ofNat (c.toNat - 32) else c

/-- Lower-case a character list (string operations are modelled on
`String.toList` so that all definitions reduce inside the kernel). -/
def lowerL (l : List Char) : List Char := l.map asciiLower

/-- Model of `strcasecmp(a, b) == 0`: case-insensitive string equality. -/
def ciEq (a b : String) : Bool := lowerL a.toList == lowerL b.toList

/-- Model of `strncasecmp(pre, item, strlen(pre)) == 0`: the first
`pre.length` characters of `item` equal `pre` case-insensitively
(an `item` shorter than `pre` compares unequal, as the terminating NUL
mismatches in C). -/
def ciPre (pre item : String) : Bool :=
  lowerL (item.toList.take pre.toList.length) == lowerL pre.toList

/-- Model of `strstr(item, pre) == item`: case-sensitive prefix test. -/
def csPre (pre item : String) : Bool := pre.toList.isPrefixOf item.toList

/-- Drop the first `n` characters of a string (model of pointer
arithmetic `item + strlen(key)`). -/
def strDrop (s : String) (n : Nat) : String := (s.toList.drop n).asString

/-- Model of `regex_match(name, regex(".*" suffix))` for the anchored
suffix regexes the module uses (`.*_vaapi`, `.*_amf`, `.*_qsv`). -/
def strEndsWith (suffix s : String) : Bool := suffix.toList.isSuffixOf s.toList

/-- Substring search on character lists (model of `strstr != NULL`). -/
def listHasSub (needle : List Char) : List Char → Bool
  | [] => needle.isEmpty
  | c :: cs => needle.isPrefixOf (c :: cs) || listHasSub needle cs

/-- Model of `strstr(hay, needle) != NULL`. -/
def hasSub (needle hay : String) : Bool := listHasSub needle.toList hay.toList

/-- Characters of `l` strictly after the first occurrence of `c`
(model of `strchr(s, c) + 1`); `none` when `c` does not occur. -/
def afterChar (c : Char) : List Char → Option (List Char)
  | [] => none
  | x :: xs => if x = c then some xs else afterChar c xs

/-- Characters of `l` strictly before the first occurrence of `c`
(the remainder of the string when the code overwrites `*strchr(..) = 0`). -/
def beforeChar (c : Char) : List Char → List Char
  | [] => []
  | x :: xs => if x = c then [] else x :: beforeChar c xs

/-- String after the first occurrence of `c`, or `""` if absent. -/
def afterCharS (c : Char) (s : String) : String :=
  ((afterChar c s.toList).getD []).asString

/-- String before the first occurrence of `c`. -/
def beforeCharS (c : Char) (s : String) : String :=
  (beforeChar c s.toList).asString

/-- Does character `c` occur in `s` (model of `strchr(s, c) != NULL`)? -/
def hasChar (c : Char) (s : String) : Bool := s.toList.contains c

/-- Value of a digit character. -/
def digitVal (c : Char) : Int := Int.ofNat (c.toNat - '0'.toNat)

/-- Accumulate leading decimal digits. -/
def digitsAcc : Int → List Char → Int × List Char × Nat
  | acc, [] => (acc, [], 0)
  | acc, c :: cs =>
    if c.isDigit then
      let r := digitsAcc (acc * 10 + digitVal c) cs
      (r.1, r.2.1, r.2.2 + 1)
    else (acc, c :: cs, 0)

/-- Model of C `atoi` on the inputs this module feeds it (an optional
sign followed by decimal digits; anything else yields `0`). -/
def atoiM (s : String) : Int :=
  match s.toList with
  | '-' :: cs => -(digitsAcc 0 cs).1
  | '+' :: cs => (digitsAcc 0 cs).1
  | cs => (digitsAcc 0 cs).1

/-- Model of `std::stoi(s, &pos)`: the parsed value together with the
number of characters consumed and whether any digit was consumed.
(The genuine `std::stoi` throws `std::invalid_argument` when nothing
parses; callers in the module that catch the exception observe
`consumed = 0`.) -/
def stoiPos (s : String) : Int × Nat × Bool :=
  match s.toList with
  | '-' :: cs =>
    let r := digitsAcc 0 cs
    if r.2.2 = 0 then (0, 0, false) else (-r.1, r.2.2 + 1, true)
  | '+' :: cs =>
    let r := digitsAcc 0 cs
    if r.2.2 = 0 then (0, 0, false) else (r.1, r.2.2 + 1, true)
  | cs =>
    let r := digitsAcc 0 cs
    if r.2.2 = 0 then (0, 0, false) else (r.1, r.2.2, true)

/-- Fractional digits of an `atof` parse, as an exact rational. -/
def fracAcc : Rat → Rat → List Char → Rat
  | acc, _, [] => acc
  | acc, sc, c :: cs =>
    if c.isDigit then fracAcc (acc + (digitVal c : Rat) * sc / 10) (sc / 10) cs
    else acc

/-- Model of C `atof` on the decimal literals this module feeds it
(optional sign, digits, optional fractional part); C doubles are
embedded as exact rationals. -/
def atofM (s : String) : Rat :=
  let core : List Char → Rat := fun cs =>
    let r := digitsAcc 0 cs
    let ip : Rat := (r.1 : Rat)
    match r.2.1 with
    | '.' :: rest => ip + fracAcc 0 1 rest
    | _ => ip
  match s.toList with
  | '-' :: cs => -(core cs)
  | '+' :: cs => core cs
  | cs => core cs

/-! ## Pixel formats and the negotiation scan
(`get_first_matching_pix_fmt`, `configure_with` trial-open loop) -/

/-- `AV_PIX_FMT_NONE` (value `-1` in FFmpeg). -/
def AV_PIX_FMT_NONE : Int := -1

/-- Embedding of `get_first_matching_pix_fmt` from
`src/video_compress/libavcodec.cpp:658`.  The first list plays the role
of the candidate (`req_pix_fmts`) iterator range `[it, end)`, the second
the backend's NONE-terminated `codec_pix_fmts` array (its elements
before the sentinel).  Returns the selected format together with the
iterator position after the call: the source advances `it` past every
candidate it inspects and, on a hit, past the selected one as well
(`ret = *it++`).  A NULL `codec_pix_fmts` behaves as an empty list
(both return `AV_PIX_FMT_NONE`). -/
def getFirstMatchingPixFmt : List Int → List Int → Int × List Int
  | [], _ => (AV_PIX_FMT_NONE, [])
  | c :: rest, codecPixFmts =>
    if codecPixFmts.contains c then (c, rest)
    else getFirstMatchingPixFmt rest codecPixFmts

/-- The candidate-order first match, i.e. the first element of the
candidate list that occurs in the backend list (what the source
computes, per its own doc comment "select first match of item from
first list in second list"). -/
def candidateFirstMatch (cands backend : List Int) : Option Int :=
  cands.find? (fun c => backend.contains c)

/-- The backend-order first match, transcribed from the spec's words
("the format returned is the first element of B that also occurs in C"):
the first element of the backend list that occurs in the candidate
list. -/
def backendFirstMatchSpec (cands backend : List Int) : Option Int :=
  backend.find? (fun b => cands.contains b)

theorem getFirstMatchingPixFmt_sub (B : List Int) :
    ∀ C : List Int, (getFirstMatchingPixFmt C B).2.Sublist C ∧
      ((getFirstMatchingPixFmt C B).1 ≠ AV_PIX_FMT_NONE →
        ((getFirstMatchingPixFmt C B).1 :: (getFirstMatchingPixFmt C B).2).Sublist C) := by
  intro C
  induction C with
  | nil => exact ⟨List.Sublist.refl _, fun h => absurd rfl h⟩
  | cons c rest ih =>
    by_cases hc : B.contains c
    · simp only [getFirstMatchingPixFmt, hc, if_pos]
      exact ⟨List.sublist_cons_self c rest, fun _ => List.Sublist.refl _⟩
    · simp only [getFirstMatchingPixFmt, hc, Bool.false_eq_true, if_false]
      exact ⟨ih.1.trans (List.sublist_cons_self c rest),
             fun h => (ih.2 h).trans (List.sublist_cons_self c rest)⟩

theorem getFirstMatchingPixFmt_eq_find (B : List Int) :
    ∀ C : List Int,
      (getFirstMatchingPixFmt C B).1 = (candidateFirstMatch C B).getD AV_PIX_FMT_NONE := by
  intro C
  induction C with
  | nil => rfl
  | cons c rest ih =>
    by_cases hc : B.contains c
    · rw [candidateFirstMatch, List.find?_cons_of_pos _ hc]
      have hm : c ∈ B := by simpa using hc
      simp [getFirstMatchingPixFmt, hm]
    · rw [candidateFirstMatch, List.find?_cons_of_neg _ (by simpa using hc)]
      simp only [getFirstMatchingPixFmt, hc, Bool.false_eq_true, if_false]
      exact ih

/-- C2 counterexample data: candidates `[1, 2]`, backend list `[2, 1]`. -/
def c2Cands : List Int := [1, 2]

/-- C2 counterexample backend list. -/
def c2Backend : List Int := [2, 1]

/-- C2: the claim says the returned format is the first element of the
backend list that also occurs in the candidate list.  On candidates
`[1, 2]` and backend list `[2, 1]` the source returns `1` (the first
candidate occurring in the backend list), while the first backend
element occurring in the candidate list is `2`: the claim is false. -/
theorem c2_counterexample :
    (getFirstMatchingPixFmt c2Cands c2Backend).1 = 1 ∧
      backendFirstMatchSpec c2Cands c2Backend = some 2 ∧ (1 : Int) ≠ 2 := by
  decide

/-- C2 (amended): the scan is first-match-wins in the candidate list's
own order: for every candidate list C and backend list B, the format
returned is the first element of C that also occurs in B (candidate
preference, not backend preference, decides). -/
theorem c2_candidate_order_first_match (C B : List Int) :
    (getFirstMatchingPixFmt C B).1 = (candidateFirstMatch C B).getD AV_PIX_FMT_NONE :=
  getFirstMatchingPixFmt_eq_find B C

/-- Embedding of the trial-open loop of `configure_with`
(`src/video_compress/libavcodec.cpp:1023`):

    auto it = requested_pix_fmt.cbegin();
    while ((pix_fmt = get_first_matching_pix_fmt(it, end, codec->pix_fmts)) != AV_PIX_FMT_NONE) {
        if (try_open_codec(...)) break;
    }

`openOk` abstracts `try_open_codec` (whether the backend accepts a trial
open with the given format).  Returns the selected format (`none` models
the loop ending with `AV_PIX_FMT_NONE`) together with the sequence of
formats for which a trial open was performed, in order. -/
def tryOpenLoop (B : List Int) (openOk : Int → Bool) (C : List Int) : Option Int × List Int :=
  let p := getFirstMatchingPixFmt C B
  if h : p.1 = AV_PIX_FMT_NONE then (none, [])
  else if openOk p.1 then (some p.1, [p.1])
  else
    let r := tryOpenLoop B openOk p.2
    (r.1, p.1 :: r.2)
termination_by C.length
decreasing_by
  have h2 := ((getFirstMatchingPixFmt_sub B C).2 h).length_le
  simpa using Nat.lt_of_succ_le (by simpa using h2)

theorem tryOpenLoop_tried_sublist_aux (B : List Int) (openOk : Int → Bool) :
    ∀ n, ∀ C : List Int, C.length ≤ n → (tryOpenLoop B openOk C).2.Sublist C := by
  intro n
  induction n with
  | zero =>
    intro C hC
    have hC0 : C = [] := List.length_eq_zero.mp (Nat.le_zero.mp hC)
    subst hC0
    rw [tryOpenLoop]
    simp [getFirstMatchingPixFmt]
  | succ n ih =>
    intro C hC
    rw [tryOpenLoop]
    by_cases h : (getFirstMatchingPixFmt C B).1 = AV_PIX_FMT_NONE
    · simp [h]
    · have hsub := (getFirstMatchingPixFmt_sub B C).2 h
      by_cases ho : openOk (getFirstMatchingPixFmt C B).1
      · simp only [h, dif_neg, ho, if_pos, dite_eq_ite, if_false]
        exact ((List.nil_sublist _).cons₂ _).trans hsub
      · have hlen : (getFirstMatchingPixFmt C B).2.length ≤ n := by
          have := hsub.length_le
          simp only [List.length_cons] at this
          omega
        simp only [h, dif_neg, ho, Bool.false_eq_true, if_false, dite_eq_ite]
        exact ((ih _ hlen).cons₂ _).trans hsub

theorem tryOpenLoop_tried_sublist (B : List Int) (openOk : Int → Bool) (C : List Int) :
    (tryOpenLoop B openOk C).2.Sublist C :=
  tryOpenLoop_tried_sublist_aux B openOk C.length C le_rfl

/-- C9: the negotiation loop tries each candidate at most once and
terminates (the model `tryOpenLoop` is a total function): the shared
iterator is advanced past every candidate that is selected or whose
trial open fails, so for a duplicate-free candidate list of length n the
loop performs at most n trial opens and never re-tries a format that
already failed to open (the list of tried formats has no duplicates). -/
theorem c9_trial_opens_bounded (B : List Int) (openOk : Int → Bool) (C : List Int)
    (h : C.Nodup) :
    (tryOpenLoop B openOk C).2.length ≤ C.length ∧ (tryOpenLoop B openOk C).2.Nodup :=
  ⟨(tryOpenLoop_tried_sublist B openOk C).length_le,
   (tryOpenLoop_tried_sublist B openOk C).nodup h⟩

/-- C9 witness: concrete run with candidates `[1, 2, 3]`, backend list
`[2, 3]` and every trial open failing. -/
theorem c9_trial_opens_bounded_witness :
    ([1, 2, 3] : List Int).Nodup ∧
      ((tryOpenLoop [2, 3] (fun _ => false) [1, 2, 3]).2.length ≤ ([1, 2, 3] : List Int).length ∧
        (tryOpenLoop [2, 3] (fun _ => false) [1, 2, 3]).2.Nodup) :=
  ⟨by decide, c9_trial_opens_bounded [2, 3] (fun _ => false) [1, 2, 3] (by decide)⟩

/-! ## Data model: codecs, stream descriptions, compression state -/

/-- The `codec_t` values this module deals with (`VIDEO_CODEC_NONE = NONE`). -/
inductive Codec where
  | NONE | H264 | H265 | MJPG | J2K | VP8 | VP9 | HFYU | FFV1 | AV1 | PRORES
deriving DecidableEq, Repr

/-- Embedding of `struct video_desc` as captured per frame (width,
height, fps, interlacing, color spec, tile count); `fps` is a C double,
embedded as a rational, and `interlacing`/`color_spec` keep their enum
values. -/
structure VideoDesc where
  width : Nat
  height : Nat
  fps : Rat
  interlacing : Int
  colorSpec : Codec
  tileCount : Nat
deriving DecidableEq, Repr

/-- The all-zero description produced by
`memset(&s->saved_desc, 0, sizeof(s->saved_desc))` in
`libavcodec_check_messages`. -/
def zeroDesc : VideoDesc := ⟨0, 0, 0, 0, Codec.NONE, 0⟩

/-- Modelled from the spec: `video_desc_eq_excl_param(a, b, PARAM_TILE_COUNT)`
is declared and called in `libavcodec_compress_tile` but defined outside
the provided sources; per the spec ("compared (excluding tile count) to
detect reconfiguration need") it compares every field of the stream
description except the tile count. -/
def videoDescEqExclTileCount (a b : VideoDesc) : Bool :=
  a.width == b.width && a.height == b.height && a.fps == b.fps &&
    a.interlacing == b.interlacing && a.colorSpec == b.colorSpec

/-- Embedding of `struct to_lavc_req_prop` (subsampling/depth/RGB
overrides and forced conversion target). -/
structure ReqConvProp where
  subsampling : Int
  depth : Int
  rgb : Int
  forceConvTo : Codec
deriving DecidableEq, Repr

/-- The fields of `struct state_video_compress_libav` (plus the embedded
`setparam_param` members) that `parse_fmt`, `libavcodec_check_messages`
and `libavcodec_compress_tile` read or write.  `lavcOpts` models the
`std::map` of raw passthrough options as an association list updated in
place (`operator[]` replaces an existing key). -/
structure LavcState where
  savedDesc : VideoDesc
  requestedCodecId : Codec
  requestedBitrate : Int
  requestedBpp : Rat
  requestedCrf : Rat
  requestedCqp : Int
  reqConvProp : ReqConvProp
  backend : String
  requestedGop : Int
  lavcOpts : List (String × String)
  periodicIntra : Int
  interlacedDct : Int
  threadMode : String
  slices : Int
  convThreadCount : Int
  storeOrigFormat : Bool
deriving DecidableEq, Repr

/-- The member initializers of `state_video_compress_libav` (requested
codec NONE, bitrate 0, bpp 0, crf -1, cqp -1, conversion overrides
`{0, 0, -1, NONE}`, GOP `DEFAULT_GOP_SIZE = 20`, `periodic_intra` and
`interlaced_dct` -1, slices -1); `convThreadCount` abstracts the
machine-dependent `thread::hardware_concurrency()` default as a
parameter. -/
def initState (convThreads : Int) : LavcState :=
  { savedDesc := zeroDesc
    requestedCodecId := Codec.NONE
    requestedBitrate := 0
    requestedBpp := 0
    requestedCrf := -1
    requestedCqp := -1
    reqConvProp := ⟨0, 0, -1, Codec.NONE⟩
    backend := ""
    requestedGop := 20
    lavcOpts := []
    periodicIntra := -1
    interlacedDct := -1
    threadMode := ""
    slices := -1
    convThreadCount := convThreads
    storeOrigFormat := false }

/-- Update-or-insert on the `lavc_opts` association list
(`s->lavc_opts[key] = val`). -/
def optsSet (key val : String) : List (String × String) → List (String × String)
  | [] => [(key, val)]
  | (k, v) :: rest => if k == key then (k, val) :: rest else (k, v) :: optsSet key val rest

/-- Repository helpers used by `parse_fmt` that are declared in headers
outside the provided sources; theorems take them as parameters and
concrete evaluations instantiate them.  `unitEvaluateDbl` returns `none`
where the C function returns NaN. -/
structure Externals where
  getCodecFromName : String → Codec
  unitEvaluate : String → Int
  unitEvaluateDbl : String → Option Rat
  getCommandlineParam : String → Option String

/-! ## Option parser (`parse_fmt`, lines 401-520) -/

/-- One iteration of the `strtok_r` dispatch loop of `parse_fmt`.
Returns the updated state, the updated `show_help` flag, and whether the
item parsed (`false` models `return -1`).  The branch order and the
matching functions (`strncasecmp` prefix, `strstr` prefix/containment,
`strcasecmp`) follow the source exactly.  Notes kept from the source:
the `codec=` branch stores the looked-up codec before checking it, and
the `subsampling=` branch stores the scaled value before validating it,
so both leave their field mutated on failure; the `bpp=` NaN failure is
modelled as leaving the previous value (NaN has no rational embedding).
The `\:`-escaping (`replace_all`) and the `std::stoi` exception on
non-numeric `threads=`/`slices=` arguments are outside the model. -/
def parseItem (ext : Externals) (st : LavcState) (showHelp : Bool) (item : String) :
    LavcState × Bool × Bool :=
  if ciPre "help" item then (st, true, true)
  else if ciPre "codec=" item then
    let c := ext.getCodecFromName (strDrop item 6)
    ({st with requestedCodecId := c}, showHelp, c ≠ Codec.NONE)
  else if ciPre "bitrate=" item then
    ({st with requestedBitrate := ext.unitEvaluate (strDrop item 8)}, showHelp, true)
  else if ciPre "bpp=" item then
    match ext.unitEvaluateDbl (strDrop item 4) with
    | none => (st, showHelp, false)
    | some v => ({st with requestedBpp := v}, showHelp, true)
  else if ciPre "crf=" item then
    ({st with requestedCrf := atofM (strDrop item 4)}, showHelp, true)
  else if csPre "cqp=" item || csPre "q=" item then
    ({st with requestedCqp := atoiM (afterCharS '=' item)}, showHelp, true)
  else if ciPre "subsampling=" item then
    let v0 := atoiM (strDrop item 12)
    let v := if v0 < 1000 then v0 * 10 else v0
    ({st with reqConvProp := {st.reqConvProp with subsampling := v}}, showHelp,
      v = 4440 ∨ v = 4220 ∨ v = 4200)
  else if csPre "depth=" item then
    ({st with reqConvProp := {st.reqConvProp with depth := atoiM (afterCharS '=' item)}},
      showHelp, true)
  else if ciEq item "rgb" || ciEq item "yuv" then
    ({st with reqConvProp := {st.reqConvProp with rgb := if ciEq item "rgb" then 1 else 0}},
      showHelp, true)
  else if hasSub "intra_refresh" item then
    ({st with periodicIntra := if csPre "disable_" item then 0 else 1}, showHelp, true)
  else if hasSub "interlaced_dct" item then
    ({st with interlacedDct := if csPre "disable_" item then 0 else 1}, showHelp, true)
  else if ciPre "threads=" item then
    let arg := strDrop item 8
    if hasChar ',' arg then
      ({st with convThreadCount := (stoiPos (afterCharS ',' arg)).1,
                threadMode := beforeCharS ',' arg}, showHelp, true)
    else ({st with threadMode := arg}, showHelp, true)
  else if ciPre "slices=" item then
    ({st with slices := (stoiPos (afterCharS '=' item)).1}, showHelp, true)
  else if ciPre "encoder=" item then
    ({st with backend := strDrop item 8}, showHelp, true)
  else if ciPre "gop=" item then
    ({st with requestedGop := atoiM (strDrop item 4)}, showHelp, true)
  else if hasChar '=' item then
    ({st with lavcOpts := optsSet (beforeCharS '=' item) (afterCharS '=' item) st.lavcOpts},
      showHelp, true)
  else (st, showHelp, false)

/-- The `while (strtok_r ...)` loop of `parse_fmt`: items are processed
in order until one fails. -/
def parseFmtLoop (ext : Externals) : LavcState → Bool → List String → LavcState × Bool × Bool
  | st, sh, [] => (st, sh, true)
  | st, sh, item :: rest =>
    let r := parseItem ext st sh item
    if r.2.2 then parseFmtLoop ext r.1 r.2.1 rest else (r.1, r.2.1, false)

/-- Embedding of `parse_fmt` over the colon-tokenized configuration
string.  Returns the (possibly mutated) state together with the return
code: `-1` on a parse error, `1` when help was requested (directly or
via `--param lavc-use-codec=help`), else `0`; the help-printing calls
have no state effect and the `keep-pixfmt` command-line parameter sets
`store_orig_format` exactly as in the source. -/
def parseFmt (ext : Externals) (st : LavcState) (tokens : List String) : LavcState × Int :=
  let r := parseFmtLoop ext st false tokens
  if !r.2.2 then (r.1, -1)
  else
    let st2 := if (ext.getCommandlineParam "keep-pixfmt").isSome
               then {r.1 with storeOrigFormat := true} else r.1
    if r.2.1 || ext.getCommandlineParam "lavc-use-codec" == some "help"
    then (st2, 1) else (st2, 0)

/-! ## Reconfiguration controller (`libavcodec_check_messages`, lines 1690-1708) -/

/-- Response tags of the messaging layer (`RESPONSE_OK = 200`,
`RESPONSE_INT_SERV_ERR = 500`). -/
inductive MsgResponse where
  | ok | intServErr
deriving DecidableEq, Repr

/-- Embedding of one message delivery in `libavcodec_check_messages`:
`parse_fmt` runs directly on the live state `s`; the response is OK
exactly when it returns 0; and `s->saved_desc` is zeroed by `memset`
afterwards regardless of the parse outcome. -/
def checkMessagesOne (ext : Externals) (st : LavcState) (tokens : List String) :
    LavcState × MsgResponse :=
  let r := parseFmt ext st tokens
  ({r.1 with savedDesc := zeroDesc},
   if r.2 = 0 then MsgResponse.ok else MsgResponse.intServErr)

/-- Externals instance for closed evaluations: no codec name resolves,
units evaluate to 0 / NaN, no command-line parameters are set. -/
def extNone : Externals :=
  ⟨fun _ => Codec.NONE, fun _ => 0, fun _ => none, fun _ => none⟩

/-- C1 counterexample: delivering the reconfiguration message
`"gop=30:foo"` to a freshly initialized state.  `gop=30` parses and
mutates the live request; `foo` (no `=`, no recognized key) fails, so
the handler answers `RESPONSE_INT_SERV_ERR` — yet `requested_gop` has
changed from its prior value 20 to 30, because `parse_fmt` runs directly
on the live state, not on a copy.  This refutes the claim that on parse
failure the previously active compression request is left byte-for-byte
unchanged. -/
theorem c1_counterexample :
    (checkMessagesOne extNone (initState 8) ["gop=30", "foo"]).2 = MsgResponse.intServErr ∧
      (checkMessagesOne extNone (initState 8) ["gop=30", "foo"]).1.requestedGop = 30 ∧
      (initState 8).requestedGop = 20 := by
  decide

/-- C1 (amended): for every reconfiguration message whose configuration
string fails to parse, the handler returns an error response; but the
request is parsed in place, so fields set by tokens preceding the
failing one keep their new values (the live request is not guaranteed
unchanged, as `c1_counterexample` shows). -/
theorem c1_parse_failure_error_response (ext : Externals) (st : LavcState)
    (tokens : List String) (h : (parseFmt ext st tokens).2 = -1) :
    (checkMessagesOne ext st tokens).2 = MsgResponse.intServErr := by
  simp only [checkMessagesOne, h]
  decide

/-- C1 witness: the amended theorem applied to the concrete failing
message of `c1_counterexample`. -/
theorem c1_parse_failure_error_response_witness :
    (parseFmt extNone (initState 8) ["gop=30", "foo"]).2 = -1 ∧
      (checkMessagesOne extNone (initState 8) ["gop=30", "foo"]).2 = MsgResponse.intServErr :=
  ⟨by decide, c1_parse_failure_error_response extNone (initState 8) ["gop=30", "foo"] (by decide)⟩

/-! ## Per-frame reconfiguration decision (`libavcodec_compress_tile`,
lines 1163-1172, and `configure_with`, line 1081) -/

/-- Embedding of the reconfiguration decision taken for each submitted
frame in `libavcodec_compress_tile`: if the incoming description is not
equal (excluding tile count) to `s->saved_desc`, the pipeline runs
`cleanup` and `configure_with`; `configure_with` assigns
`s->saved_desc = desc` only on success (its final line), while on
failure the tile function returns empty and `saved_desc` keeps its
previous value.  `configureOk` abstracts whether `configure_with`
succeeds.  Returns (reconfiguration triggered?, new `saved_desc`). -/
def submitFrameStep (configureOk : Bool) (saved incoming : VideoDesc) : Bool × VideoDesc :=
  if videoDescEqExclTileCount incoming saved then (false, saved)
  else (true, if configureOk then incoming else saved)

theorem videoDescEqExclTileCount_iff (a b : VideoDesc) :
    videoDescEqExclTileCount a b = true ↔
      (a.width = b.width ∧ a.height = b.height ∧ a.fps = b.fps ∧
        a.interlacing = b.interlacing ∧ a.colorSpec = b.colorSpec) := by
  simp [videoDescEqExclTileCount, Bool.and_eq_true, and_assoc]

/-- C6 counterexample: two frames with identical descriptions `D` are
submitted while the saved description differs and every configuration
attempt fails.  The first submission triggers a (failed) reconfiguration
which leaves `saved_desc` unchanged, so the second submission — whose
description equals the first in every compared field — triggers a
reconfiguration again, refuting "submitting the first and then the
second never triggers a reconfiguration between them". -/
theorem c6_counterexample :
    videoDescEqExclTileCount ⟨1920, 1080, 30, 0, Codec.NONE, 1⟩
        ⟨1920, 1080, 30, 0, Codec.NONE, 1⟩ = true ∧
      (submitFrameStep false
        (submitFrameStep false zeroDesc ⟨1920, 1080, 30, 0, Codec.NONE, 1⟩).2
        ⟨1920, 1080, 30, 0, Codec.NONE, 1⟩).1 = true := by
  decide

/-- C6 (amended): reconfiguration runs exactly when the incoming
description differs from the saved one ignoring tile count; hence for
two consecutive frames equal in every compared field except tile count,
if the first submission's configuration (when one ran) succeeded, the
second submission does not trigger a reconfiguration. -/
theorem c6_no_reconfig_after_success (saved D1 D2 : VideoDesc) (ok2 : Bool)
    (h : videoDescEqExclTileCount D1 D2 = true) :
    (submitFrameStep ok2 (submitFrameStep true saved D1).2 D2).1 = false ∧
      (∀ ok s d, (submitFrameStep ok s d).1 = !(videoDescEqExclTileCount d s)) := by
  constructor
  · by_cases h1 : videoDescEqExclTileCount D1 saved
    · have h2 : videoDescEqExclTileCount D2 saved = true := by
        rw [videoDescEqExclTileCount_iff] at h h1 ⊢
        refine ⟨h.1 ▸ h1.1, ?_, ?_, ?_, ?_⟩ <;>
          [exact h.2.1 ▸ h1.2.1; exact h.2.2.1 ▸ h1.2.2.1;
           exact h.2.2.2.1 ▸ h1.2.2.2.1; exact h.2.2.2.2 ▸ h1.2.2.2.2]
      simp [submitFrameStep, h1, h2]
    · have h2 : videoDescEqExclTileCount D2 D1 = true := by
        rw [videoDescEqExclTileCount_iff] at h ⊢
        exact ⟨h.1.symm, h.2.1.symm, h.2.2.1.symm, h.2.2.2.1.symm, h.2.2.2.2.symm⟩
      simp [submitFrameStep, h1, h2]
  · intro ok s d
    by_cases he : videoDescEqExclTileCount d s <;> simp [submitFrameStep, he]

/-- C6 witness: the amended theorem at concrete descriptions differing
only in tile count. -/
theorem c6_no_reconfig_after_success_witness :
    videoDescEqExclTileCount ⟨1920, 1080, 30, 0, Codec.NONE, 1⟩
        ⟨1920, 1080, 30, 0, Codec.NONE, 2⟩ = true ∧
      ((submitFrameStep true
          (submitFrameStep true zeroDesc ⟨1920, 1080, 30, 0, Codec.NONE, 1⟩).2
          ⟨1920, 1080, 30, 0, Codec.NONE, 2⟩).1 = false ∧
        (∀ ok s d, (submitFrameStep ok s d).1 = !(videoDescEqExclTileCount d s))) :=
  ⟨by decide,
   c6_no_reconfig_after_success zeroDesc ⟨1920, 1080, 30, 0, Codec.NONE, 1⟩
     ⟨1920, 1080, 30, 0, Codec.NONE, 2⟩ true (by decide)⟩

/-- C10: processing a reconfiguration message zeroes the cached stream
description (`memset(&s->saved_desc, 0, ...)`) regardless of whether the
new configuration string parsed; consequently the next submitted frame
(any frame with a nonzero width) compares unequal to the zeroed
description and triggers a full reconfiguration. -/
theorem c10_message_zeroes_saved_desc (ext : Externals) (st : LavcState)
    (tokens : List String) (ok : Bool) (desc : VideoDesc) (h : desc.width ≠ 0) :
    (checkMessagesOne ext st tokens).1.savedDesc = zeroDesc ∧
      (submitFrameStep ok (checkMessagesOne ext st tokens).1.savedDesc desc).1 = true := by
  refine ⟨rfl, ?_⟩
  have hz : (checkMessagesOne ext st tokens).1.savedDesc = zeroDesc := rfl
  rw [hz]
  have hne : videoDescEqExclTileCount desc zeroDesc = false := by
    rw [← Bool.not_eq_true, videoDescEqExclTileCount_iff]
    intro hc
    exact h hc.1
  simp [submitFrameStep, hne]

/-- C10 witness: a failing message (`"foo"` is not a recognized option)
followed by a 1920x1080 frame. -/
theorem c10_message_zeroes_saved_desc_witness :
    (1920 : Nat) ≠ 0 ∧
      ((checkMessagesOne extNone (initState 8) ["foo"]).1.savedDesc = zeroDesc ∧
        (submitFrameStep true (checkMessagesOne extNone (initState 8) ["foo"]).1.savedDesc
          ⟨1920, 1080, 30, 0, Codec.NONE, 1⟩).1 = true) :=
  ⟨by decide,
   c10_message_zeroes_saved_desc extNone (initState 8) ["foo"] true
     ⟨1920, 1080, 30, 0, Codec.NONE, 1⟩ (by decide)⟩

/-! ## Parameter tuner (`set_codec_ctx_params`, lines 730-808, and
`set_cqp`, lines 705-728) -/

/-- The `avg_bpp` column of the static `codec_params` registry
(lines 155-228); absent keys (only `NONE` here) default-construct to 0
under `std::map::operator[]`.  C double literals are embedded as exact
rationals. -/
def codecParamsAvgBpp : Codec → Rat
  | Codec.H264 => (7 / 100) * 2 * 2
  | Codec.H265 => (4 / 100) * 2 * 2
  | Codec.MJPG => 12 / 10
  | Codec.J2K => 1
  | Codec.VP8 => 4 / 10
  | Codec.VP9 => 4 / 10
  | Codec.HFYU => 0
  | Codec.FFV1 => 0
  | Codec.AV1 => 1 / 10
  | Codec.PRORES => 5 / 10
  | Codec.NONE => 0

/-- `strstr(name, "libx26") == name` (line 732). -/
def isX264X265 (name : String) : Bool := csPre "libx26" name

/-- `regex_match(name, regex(".*_vaapi"))` (line 733). -/
def isVaapiName (name : String) : Bool := strEndsWith "_vaapi" name

/-- `strstr(name, "mjpeg") != nullptr` (line 734). -/
def isMjpegName (name : String) : Bool := hasSub "mjpeg" name

/-- The CQP value chosen by `set_cqp` (lines 705-714): the requested
value if not -1, else `DEFAULT_CQP_MJPEG_QSV = 80` for `mjpeg_qsv`,
`DEFAULT_CQP_QSV = 5000` for other `_qsv` encoders, and
`DEFAULT_CQP = 21` otherwise. -/
def setCqpValue (name : String) (requestedCqp : Int) : Int :=
  if requestedCqp = -1 then
    if hasSub "_qsv" name then (if name == "mjpeg_qsv" then 80 else 5000) else 21
  else requestedCqp

/-- The rate-control decisions recorded by the model of
`set_codec_ctx_params`: whether constant-QP mode was configured
(`set_cqp`: `AV_CODEC_FLAG_QSCALE` plus the applied QP value), whether a
CRF was applied, and the `bit_rate` stored on the context, if any. -/
structure RateControlResult where
  qscaleFlag : Bool
  cqpApplied : Option Int
  crfApplied : Option Rat
  bitRateApplied : Option Int
deriving DecidableEq, Repr

/-- Embedding of the quality/bitrate selection of `set_codec_ctx_params`
(lines 736-763).  Faithful points: `avg_bpp` is the request's bpp when
positive, else the registry default for `ug_codec`; the computed bitrate
is `width * height * avg_bpp * fps` (a double product whose store into
the `int_fast64_t` `bitrate` truncates — the operands here are
nonnegative, so the truncation equals the floor); the CQP branch fires
for an explicit CQP (>= 0) or for a VAAPI/MJPEG encoder with no other
quality hint; the CRF branch fires for an explicit CRF (>= 0, default
`DEFAULT_X264_X265_CRF = 22` for x264/x265 without hints); otherwise
`set_bitrate` is set — and `bit_rate` is stored whenever `set_bitrate`
holds **or** an explicit bitrate was requested, even alongside CQP/CRF
(line 759). -/
def setCodecCtxParamsRc (name : String) (ugCodec : Codec) (st : LavcState)
    (desc : VideoDesc) : RateControlResult :=
  let isX := isX264X265 name
  let isV := isVaapiName name
  let isM := isMjpegName name
  let avgBpp : Rat := if st.requestedBpp > 0 then st.requestedBpp else codecParamsAvgBpp ugCodec
  let bitrate : Int :=
    if st.requestedBitrate > 0 then st.requestedBitrate
    else ⌊(desc.width : Rat) * (desc.height : Rat) * avgBpp * desc.fps⌋
  let cqpCond : Prop :=
    st.requestedCqp ≥ 0 ∨
      ((isV || isM) = true ∧ st.requestedCrf = -1 ∧ st.requestedBitrate = 0 ∧
        st.requestedBpp = 0)
  let crfCond : Prop :=
    st.requestedCrf ≥ 0 ∨ (isX = true ∧ st.requestedBitrate = 0 ∧ st.requestedBpp = 0)
  let bitrateOut : Option Int :=
    if st.requestedBitrate > 0 then some bitrate else none
  if cqpCond then
    { qscaleFlag := true, cqpApplied := some (setCqpValue name st.requestedCqp),
      crfApplied := none, bitRateApplied := bitrateOut }
  else if crfCond then
    { qscaleFlag := false, cqpApplied := none,
      crfApplied := some (if st.requestedCrf ≥ 0 then st.requestedCrf else 22),
      bitRateApplied := bitrateOut }
  else
    { qscaleFlag := false, cqpApplied := none, crfApplied := none,
      bitRateApplied := some bitrate }

/-- A request with both an explicit CQP (21) and an explicit bitrate
(1,000,000), used by C3. -/
def c3Req : LavcState := {initState 8 with requestedCqp := 21, requestedBitrate := 1000000}

/-- A 1920x1080@30 progressive stream description. -/
def descFHD : VideoDesc := ⟨1920, 1080, 30, 0, Codec.NONE, 1⟩

/-- C3 counterexample: a request carrying both an explicit CQP (21) and
an explicit bitrate (1,000,000) on `libx264`/H.264.  The tuner
configures constant-QP mode **and** stores `bit_rate = 1000000`
(line 759: `if (set_bitrate || s->requested_bitrate > 0)`), refuting
"never also computes or applies a target bitrate to the encoder
context". -/
theorem c3_counterexample :
    (setCodecCtxParamsRc "libx264" Codec.H264 c3Req descFHD).cqpApplied = some 21 ∧
      (setCodecCtxParamsRc "libx264" Codec.H264 c3Req descFHD).bitRateApplied =
        some 1000000 := by
  decide

/-- C3 (amended): for every request with an explicit CQP (>= 0) the
tuner configures constant-QP mode, applies no CRF, and never *computes*
a target bitrate; it applies a bitrate only when the request also
carries an explicit bitrate (> 0), which is then stored verbatim. -/
theorem c3_cqp_mode (name : String) (ugCodec : Codec) (st : LavcState)
    (desc : VideoDesc) (h : st.requestedCqp ≥ 0) :
    (setCodecCtxParamsRc name ugCodec st desc).qscaleFlag = true ∧
      (setCodecCtxParamsRc name ugCodec st desc).cqpApplied =
        some (setCqpValue name st.requestedCqp) ∧
      (setCodecCtxParamsRc name ugCodec st desc).crfApplied = none ∧
      (setCodecCtxParamsRc name ugCodec st desc).bitRateApplied =
        (if st.requestedBitrate > 0 then some st.requestedBitrate else none) := by
  simp only [setCodecCtxParamsRc]
  split
  · by_cases hb : st.requestedBitrate > 0 <;> simp [hb]
  · next hcond => exact absurd (Or.inl h) hcond

/-- C3 witness: the amended theorem at the counterexample's input. -/
theorem c3_cqp_mode_witness :
    c3Req.requestedCqp ≥ 0 ∧
      ((setCodecCtxParamsRc "libx264" Codec.H264 c3Req descFHD).qscaleFlag = true ∧
        (setCodecCtxParamsRc "libx264" Codec.H264 c3Req descFHD).cqpApplied =
          some (setCqpValue "libx264" c3Req.requestedCqp) ∧
        (setCodecCtxParamsRc "libx264" Codec.H264 c3Req descFHD).crfApplied = none ∧
        (setCodecCtxParamsRc "libx264" Codec.H264 c3Req descFHD).bitRateApplied =
          (if c3Req.requestedBitrate > 0 then some c3Req.requestedBitrate else none)) :=
  ⟨by decide, c3_cqp_mode "libx264" Codec.H264 c3Req descFHD (by decide)⟩

/-- C7: when neither the CQP branch nor the CRF branch applies (the
tuner falls through to target-bitrate mode), the stored bitrate equals
the request's explicit bitrate when one is set (> 0) and otherwise the
truncated product `width * height * bits_per_pixel * fps`, where
`bits_per_pixel` is the request's bpp override when positive and the
codec's registered default average bpp otherwise; no CQP and no CRF is
applied. -/
theorem c7_bitrate_fallthrough (name : String) (ugCodec : Codec) (st : LavcState)
    (desc : VideoDesc)
    (hcq : ¬(st.requestedCqp ≥ 0 ∨
      ((isVaapiName name || isMjpegName name) = true ∧ st.requestedCrf = -1 ∧
        st.requestedBitrate = 0 ∧ st.requestedBpp = 0)))
    (hcr : ¬(st.requestedCrf ≥ 0 ∨
      (isX264X265 name = true ∧ st.requestedBitrate = 0 ∧ st.requestedBpp = 0))) :
    (setCodecCtxParamsRc name ugCodec st desc).bitRateApplied =
        some (if st.requestedBitrate > 0 then st.requestedBitrate
          else ⌊(desc.width : Rat) * (desc.height : Rat) *
            (if st.requestedBpp > 0 then st.requestedBpp else codecParamsAvgBpp ugCodec) *
            desc.fps⌋) ∧
      (setCodecCtxParamsRc name ugCodec st desc).cqpApplied = none ∧
      (setCodecCtxParamsRc name ugCodec st desc).crfApplied = none := by
  simp only [setCodecCtxParamsRc]
  rw [if_neg hcq, if_neg hcr]
  exact ⟨rfl, rfl, rfl⟩

/-- C7 witness: an NVENC H.264 request with no quality hints on a
1920x1080@30 stream; the computed bitrate is
`floor(1920 * 1080 * 0.28 * 30) = 17418240`. -/
theorem c7_bitrate_fallthrough_witness :
    (¬((initState 8).requestedCqp ≥ 0 ∨
        ((isVaapiName "h264_nvenc" || isMjpegName "h264_nvenc") = true ∧
          (initState 8).requestedCrf = -1 ∧ (initState 8).requestedBitrate = 0 ∧
          (initState 8).requestedBpp = 0)) ∧
      ¬((initState 8).requestedCrf ≥ 0 ∨
        (isX264X265 "h264_nvenc" = true ∧ (initState 8).requestedBitrate = 0 ∧
          (initState 8).requestedBpp = 0))) ∧
      ((setCodecCtxParamsRc "h264_nvenc" Codec.H264 (initState 8) descFHD).bitRateApplied =
          some (if (initState 8).requestedBitrate > 0 then (initState 8).requestedBitrate
            else ⌊(descFHD.width : Rat) * (descFHD.height : Rat) *
              (if (initState 8).requestedBpp > 0 then (initState 8).requestedBpp
                else codecParamsAvgBpp Codec.H264) * descFHD.fps⌋) ∧
        (setCodecCtxParamsRc "h264_nvenc" Codec.H264 (initState 8) descFHD).cqpApplied =
          none ∧
        (setCodecCtxParamsRc "h264_nvenc" Codec.H264 (initState 8) descFHD).crfApplied =
          none) :=
  ⟨⟨by decide, by decide⟩,
   c7_bitrate_fallthrough "h264_nvenc" Codec.H264 (initState 8) descFHD
     (by decide) (by decide)⟩

/-! ## Thread-mode handling (`set_codec_thread_mode`, lines 1304-1357) -/

/-- `FF_THREAD_FRAME` flag value. -/
def FF_THREAD_FRAME : Int := 1

/-- `FF_THREAD_SLICE` flag value. -/
def FF_THREAD_SLICE : Int := 2

/-- The capability bits of the selected `AVCodec` that
`set_codec_thread_mode` consults (`AV_CODEC_CAP_SLICE_THREADS`,
`AV_CODEC_CAP_FRAME_THREADS`, `AV_CODEC_CAP_OTHER_THREADS`). -/
structure CodecCaps where
  sliceThreads : Bool
  frameThreads : Bool
  otherThreads : Bool
deriving DecidableEq, Repr

/-- The `thread_type` / `thread_count` pair of the `AVCodecContext`. -/
structure ThreadCtx where
  ttype : Int
  count : Int
deriving DecidableEq, Repr

/-- C bitwise-or as used for `req_thread_type |= FF_THREAD_*`: the only
negative operand reachable in the source is the force-none marker `-1`
(two's complement all-ones, absorbing under or); all other operands are
nonnegative flag words. -/
def cOr (a b : Int) : Int := if a = -1 then -1 else a.lor b

/-- The `while (endpos != size)` letter loop of `set_codec_thread_mode`
(lines 1319-1327), transcribed verbatim: each remaining character is
passed through `toupper` and dispatched by `switch (toupper(..))` with
cases `'n'` (force-none marker -1), `'F'`, `'S'`; anything else logs
"Unknown thread mode".  Returns the accumulated `req_thread_type`
together with the number of unknown-mode errors logged.  Note the
source's `case 'n':` compares the *upper-cased* character against
lower-case `'n'`. -/
def threadLetters : Int × Nat → List Char → Int × Nat
  | acc, [] => acc
  | (t, u), c :: cs =>
    if asciiUpper c = 'n' then threadLetters (-1, u) cs
    else if asciiUpper c = 'F' then threadLetters (cOr t FF_THREAD_FRAME, u) cs
    else if asciiUpper c = 'S' then threadLetters (cOr t FF_THREAD_SLICE, u) cs
    else threadLetters (t, u + 1) cs

/-- Embedding of `set_codec_thread_mode` (lines 1304-1357).  Arguments:
the codec's capability bits, its name, `thread::hardware_concurrency()`,
the thread-mode string from the request, and the context's current
thread fields (FFmpeg defaults them to
`thread_type = FRAME | SLICE`, `thread_count = 1`).  Returns the updated
context fields together with the number of "Unknown thread mode" errors
logged by the letter loop. -/
def setCodecThreadMode (caps : CodecCaps) (codecName : String) (hwConcurrency : Int)
    (tm : String) (ctx : ThreadCtx) : ThreadCtx × Nat :=
  if tm == "no" then ({ ttype := 0, count := 1 }, 0)
  else
    let sp := stoiPos tm
    let reqCount : Int := if sp.2.2 then sp.1 else -1
    let lt := threadLetters (0, 0) (tm.toList.drop sp.2.1)
    let t1 : Int :=
      if lt.1 = 0 then (if caps.sliceThreads then FF_THREAD_SLICE else 0)
      else if lt.1 = -1 then 0 else lt.1
    let ctx1 :=
      if (Int.land t1 FF_THREAD_SLICE ≠ 0 ∧ ¬caps.sliceThreads) ∨
          (Int.land t1 FF_THREAD_FRAME ≠ 0 ∧ ¬caps.frameThreads)
      then ctx else { ctx with ttype := t1 }
    let ctx2 :=
      if reqCount ≠ -1 then { ctx1 with count := reqCount }
      else if caps.otherThreads then
        (if csPre "libvpx" codecName then { ctx1 with count := 0 } else ctx1)
      else if ctx1.ttype ≠ 0 then { ctx1 with count := hwConcurrency }
      else ctx1
    (ctx2, lt.2)

/-- C4: the claim (and the module's own usage text, line 369: "'n' means
none") says the letters of the thread-mode spec are case-insensitive and
`n` forces no threading.  In the source the switch dispatches on
`toupper(c)` but the none-case is written `case 'n':` with a lower-case
literal, so it can never match: both `"n"` and `"N"` are logged as
"Unknown thread mode" (count 1) and fall into the automatic selection,
which for a slice-capable codec yields `thread_type = FF_THREAD_SLICE`
and `thread_count = hardware_concurrency`, not the forced-none
`thread_type = 0`.  Meanwhile `'f'`/`'s'` really do behave as
`'F'`/`'S'` (final conjuncts), and the distinct `threads=no` spelling
does force threading off, which is what `n` was documented to do. -/
theorem c4_thread_mode_n_unreachable :
    (setCodecThreadMode ⟨true, true, false⟩ "libx264" 8 "n" ⟨3, 1⟩ =
        (⟨FF_THREAD_SLICE, 8⟩, 1) ∧
      setCodecThreadMode ⟨true, true, false⟩ "libx264" 8 "N" ⟨3, 1⟩ =
        (⟨FF_THREAD_SLICE, 8⟩, 1)) ∧
      setCodecThreadMode ⟨true, true, false⟩ "libx264" 8 "no" ⟨3, 1⟩ = (⟨0, 1⟩, 0) ∧
      (setCodecThreadMode ⟨true, true, false⟩ "libx264" 8 "f" ⟨3, 1⟩ =
          setCodecThreadMode ⟨true, true, false⟩ "libx264" 8 "F" ⟨3, 1⟩ ∧
        setCodecThreadMode ⟨true, true, false⟩ "libx264" 8 "s" ⟨3, 1⟩ =
          setCodecThreadMode ⟨true, true, false⟩ "libx264" 8 "S" ⟨3, 1⟩) := by
  decide

/-! ## QSV H.264/HEVC rate-control dispatch
(`configure_qsv_h264_hevc`, lines 1442-1483) -/

/-- Outcome of the rate-control dispatch in `configure_qsv_h264_hevc`:
the mode is accepted and configured; `help` prints a pointer and calls
`exit_uv(0)`; or the mode is unknown, logging "Unknown/unsupported RC
%s. Please report to ..." and calling `exit_uv(1)` (process
termination). -/
inductive QsvRcOutcome where
  | accept | helpExit | abortReport
deriving DecidableEq, Repr

/-- Embedding of the rate-control selection of `configure_qsv_h264_hevc`
(lines 1456-1482): the mode is the user-supplied `rc` option if present
(which is also blacklisted from passthrough), else `DEFAULT_QSV_RC =
"vbr"`; `help` is compared case-sensitively (`strcmp`), the five
supported modes case-insensitively (`strcasecmp`). -/
def configureQsvRcMode (userRc : Option String) : QsvRcOutcome :=
  let rc := userRc.getD "vbr"
  if rc = "help" then QsvRcOutcome.helpExit
  else if ciEq rc "cbr" then QsvRcOutcome.accept
  else if ciEq rc "cqp" then QsvRcOutcome.accept
  else if ciEq rc "icq" || ciEq rc "qvbr" then QsvRcOutcome.accept
  else if ciEq rc "vbr" then QsvRcOutcome.accept
  else QsvRcOutcome.abortReport

/-- C8: for the QSV H.264/HEVC family the rate-control mode must be one
of cbr, cqp, icq, qvbr, vbr (case-insensitive) or the literal `help`;
every other mode string is a hard user-input error that terminates the
process with a report-this message (`abortReport`), never a silent
fallback; and when the user supplies no mode the default `vbr` is
accepted. -/
theorem c8_qsv_rc_dispatch (rc : String) :
    (configureQsvRcMode (some rc) = QsvRcOutcome.abortReport ↔
        ¬(rc = "help" ∨ ciEq rc "cbr" = true ∨ ciEq rc "cqp" = true ∨
          ciEq rc "icq" = true ∨ ciEq rc "qvbr" = true ∨ ciEq rc "vbr" = true)) ∧
      configureQsvRcMode none = QsvRcOutcome.accept := by
  refine ⟨?_, by decide⟩
  by_cases h1 : rc = "help" <;> by_cases h2 : ciEq rc "cbr" = true <;>
    by_cases h3 : ciEq rc "cqp" = true <;> by_cases h4 : ciEq rc "icq" = true <;>
    by_cases h5 : ciEq rc "qvbr" = true <;> by_cases h6 : ciEq rc "vbr" = true <;>
    simp [configureQsvRcMode, h1, h2, h3, h4, h5, h6]

/-! ## Performance monitor (`check_duration`, lines 1086-1123, and the
counter reset in `configure_with`, line 1072) -/

/-- `LONG_MAX` on the 64-bit targets the module runs on. -/
def LONG_MAX : Int := 9223372036854775807

/-- The fixed moving-average window (`constexpr int mov_window = 100`). -/
def movWindow : Int := 100

/-- The monitor's mutable fields `mov_avg_frames` (a C `long`) and
`mov_avg_comp_duration` (a double, embedded as a rational). -/
structure PerfState where
  frames : Int
  avg : Rat
deriving DecidableEq, Repr

/-- `configure_with` resets `s->mov_avg_frames = s->mov_avg_comp_duration = 0`. -/
def perfInit : PerfState := ⟨0, 0⟩

/-- Embedding of `check_duration` (lines 1086-1123): an early return
once `mov_avg_frames >= 10 * mov_window`; otherwise the moving average
and the frame counter are updated, a further early return unless the
counter has reached `2 * mov_window` **and** the average is at least the
per-frame budget `1 / fps`; when both hold the warning/hint block runs
(modelled as the returned `Bool`) and `mov_avg_frames` is set to
`LONG_MAX`, disabling the monitor.  `dur` is the frame's total encode
duration in seconds. -/
def checkDuration (fps : Rat) (s : PerfState) (dur : Rat) : PerfState × Bool :=
  if s.frames ≥ 10 * movWindow then (s, false)
  else
    let avg := (s.avg * ((movWindow : Rat) - 1) + dur) / (movWindow : Rat)
    let frames := s.frames + 1
    if frames < 2 * movWindow ∨ avg < 1 / fps then ({ frames := frames, avg := avg }, false)
    else ({ frames := LONG_MAX, avg := avg }, true)

/-- Fold `check_duration` over a sequence of frame durations, counting
how many times the warning/hint block fired. -/
def runPerf (fps : Rat) : PerfState → List Rat → PerfState × Nat
  | s, [] => (s, 0)
  | s, d :: ds =>
    let r := checkDuration fps s d
    let rest := runPerf fps r.1 ds
    (rest.1, (if r.2 then 1 else 0) + rest.2)

theorem checkDuration_disabled (fps : Rat) (s : PerfState) (d : Rat)
    (h : s.frames ≥ 10 * movWindow) : checkDuration fps s d = (s, false) := by
  simp [checkDuration, h]

theorem runPerf_disabled (fps : Rat) (ds : List Rat) (s : PerfState)
    (h : s.frames ≥ 10 * movWindow) : runPerf fps s ds = (s, 0) := by
  induction ds with
  | nil => rfl
  | cons d ds ih => simp [runPerf, checkDuration_disabled fps s d h, ih]

theorem checkDuration_fire_frames (fps : Rat) (s : PerfState) (d : Rat)
    (h : (checkDuration fps s d).2 = true) :
    (checkDuration fps s d).1.frames = LONG_MAX := by
  by_cases h1 : s.frames ≥ 10 * movWindow
  · simp [checkDuration, h1] at h
  · by_cases h2 : s.frames + 1 < 2 * movWindow ∨
        (s.avg * ((movWindow : Rat) - 1) + d) / (movWindow : Rat) < fps⁻¹
    · simp [checkDuration, h1, h2] at h
    · simp [checkDuration, h1, h2]

theorem runPerf_fires_le_one (fps : Rat) :
    ∀ ds : List Rat, ∀ s : PerfState, (runPerf fps s ds).2 ≤ 1 := by
  intro ds
  induction ds with
  | nil => intro s; exact Nat.zero_le 1
  | cons d ds ih =>
    intro s
    by_cases hf : (checkDuration fps s d).2 = true
    · have hd : (checkDuration fps s d).1.frames ≥ 10 * movWindow := by
        rw [checkDuration_fire_frames fps s d hf]
        decide
      simp [runPerf, hf, runPerf_disabled fps ds _ hd]
    · simp only [runPerf, Bool.not_eq_true] at hf ⊢
      rw [hf]
      simpa using ih (checkDuration fps s d).1

theorem runPerf_append (fps : Rat) (l1 l2 : List Rat) :
    ∀ s, runPerf fps s (l1 ++ l2) =
      ((runPerf fps (runPerf fps s l1).1 l2).1,
        (runPerf fps s l1).2 + (runPerf fps (runPerf fps s l1).1 l2).2) := by
  induction l1 with
  | nil => intro s; simp [runPerf]
  | cons d ds ih =>
    intro s
    simp [runPerf, ih (checkDuration fps s d).1, Nat.add_assoc]

theorem checkDuration_eval (fps : Rat) (n : Int) (avg d : Rat)
    (hn : ¬(n ≥ 10 * movWindow)) :
    checkDuration fps ⟨n, avg⟩ d =
      (if n + 1 < 2 * movWindow ∨
          (avg * ((movWindow : Rat) - 1) + d) / (movWindow : Rat) < 1 / fps
        then (⟨n + 1, (avg * ((movWindow : Rat) - 1) + d) / (movWindow : Rat)⟩, false)
        else (⟨LONG_MAX, (avg * ((movWindow : Rat) - 1) + d) / (movWindow : Rat)⟩, true)) := by
  simp only [checkDuration]
  rw [if_neg hn]

theorem runPerf_single (fps : Rat) (s : PerfState) (d : Rat) :
    runPerf fps s [d] =
      ((checkDuration fps s d).1, if (checkDuration fps s d).2 then 1 else 0) := by
  simp [runPerf]

/-- State of the monitor after `n ≤ 199` frames of duration 2 at
`fps = 1` (the Scenario E load: every frame takes twice the 1-second
budget): the counter is `n`, the exponential moving average is
`2 - 2 * (99 / 100) ^ n`, and the hint has not fired. -/
theorem perf_replicate_two (n : Nat) (hn : n ≤ 199) :
    runPerf 1 perfInit (List.replicate n 2) =
      (⟨(n : Int), 2 - 2 * ((99 : Rat) / 100) ^ n⟩, 0) := by
  induction n with
  | zero =>
    simp only [List.replicate, runPerf, perfInit, pow_zero, Nat.cast_zero]
    norm_num
  | succ n ih =>
    rw [List.replicate_succ', runPerf_append, ih (by omega)]
    have hn1 : ¬(((n : Nat) : Int) ≥ 10 * movWindow) := by
      simp only [movWindow]
      omega
    rw [runPerf_single, checkDuration_eval 1 ((n : Nat) : Int)
      (2 - 2 * ((99 : Rat) / 100) ^ n) 2 hn1]
    have hnf : ((n : Nat) : Int) + 1 < 2 * movWindow ∨
        ((2 - 2 * ((99 : Rat) / 100) ^ n) * ((movWindow : Rat) - 1) + 2) /
          (movWindow : Rat) < 1 / 1 := by
      left
      simp only [movWindow]
      omega
    rw [if_pos hnf]
    have havg : ((2 - 2 * ((99 : Rat) / 100) ^ n) * ((movWindow : Rat) - 1) + 2) /
        (movWindow : Rat) = 2 - 2 * ((99 : Rat) / 100) ^ (n + 1) := by
      have hw : ((movWindow : Int) : Rat) = 100 := by norm_num [movWindow]
      rw [hw, pow_succ]
      ring
    simp only [havg]
    norm_num

theorem pow_99_100_le_half : ((99 : Rat) / 100) ^ 200 ≤ 1 / 2 := by
  rw [div_pow, div_le_div_iff (by positivity) (by norm_num)]
  norm_num

/-- At `fps = 1`, the 200th frame of duration 2 fires the hint: the
counter reaches `2 * mov_window = 200` and the moving average
`2 - 2 * (99/100)^200` is at least the budget `1/fps = 1`; the counter
is then parked at `LONG_MAX`, disabling the monitor. -/
theorem perf_replicate_200 :
    runPerf 1 perfInit (List.replicate 200 2) =
      (⟨LONG_MAX, 2 - 2 * ((99 : Rat) / 100) ^ 200⟩, 1) := by
  rw [show (200 : Nat) = 199 + 1 from rfl, List.replicate_succ', runPerf_append,
    perf_replicate_two 199 le_rfl]
  have hn1 : ¬(((199 : Nat) : Int) ≥ 10 * movWindow) := by
    simp only [movWindow]
    omega
  rw [runPerf_single, checkDuration_eval 1 ((199 : Nat) : Int)
    (2 - 2 * ((99 : Rat) / 100) ^ 199) 2 hn1]
  have havg : ((2 - 2 * ((99 : Rat) / 100) ^ 199) * ((movWindow : Rat) - 1) + 2) /
      (movWindow : Rat) = 2 - 2 * ((99 : Rat) / 100) ^ 200 := by
    have hw : ((movWindow : Int) : Rat) = 100 := by norm_num [movWindow]
    rw [hw, show (200 : Nat) = 199 + 1 from rfl, pow_succ]
    ring
  have hfire : ¬(((199 : Nat) : Int) + 1 < 2 * movWindow ∨
      ((2 - 2 * ((99 : Rat) / 100) ^ 199) * ((movWindow : Rat) - 1) + 2) /
        (movWindow : Rat) < 1 / 1) := by
    push_neg
    constructor
    · simp only [movWindow]
      omega
    · rw [havg]
      have := pow_99_100_le_half
      linarith
  rw [if_neg hfire]
  simp only [havg]
  norm_num

/-- C5: the performance monitor fires at most once per configured
context — over any duration sequence from any state, the hint count is
at most 1 (first conjunct); in Scenario E (fps 1, so per-frame budget 1
second, and 200 frames each taking 2 seconds, twice the budget) exactly
one hint is emitted, and zero further hints follow for any continuation
of the run, since the counter is parked at `LONG_MAX` (second
conjunct); and no hint at all is emitted before the frame counter
reaches twice the 100-frame window (third conjunct: 199 such frames
yield zero hints). -/
theorem c5_perf_monitor_fires_once :
    (∀ (fps : Rat) (ds : List Rat) (s : PerfState), (runPerf fps s ds).2 ≤ 1) ∧
      (∀ extra : List Rat,
        (runPerf 1 perfInit (List.replicate 200 2 ++ extra)).2 = 1) ∧
      (runPerf 1 perfInit (List.replicate 199 2)).2 = 0 := by
  refine ⟨fun fps ds s => runPerf_fires_le_one fps ds s, fun extra => ?_, ?_⟩
  · rw [runPerf_append, perf_replicate_200]
    have hd : (⟨LONG_MAX, 2 - 2 * ((99 : Rat) / 100) ^ 200⟩ : PerfState).frames ≥
        10 * movWindow := by
      simp only [LONG_MAX, movWindow]
      omega
    rw [runPerf_disabled 1 extra _ hd]
    rfl
  · rw [perf_replicate_two 199 le_rfl]

end UGLavc
